import Mathlib

/-!
Verification of the adaptive blocking thread pool and the children-group
run-loop of the bastion runtime.

The embedding is shallow:
* `f64` values are modelled by `ℚ` (the arithmetic appearing in the scaler is
  exact on the inputs considered, so rationals are a faithful idealization);
  `std::f64::EPSILON` becomes the rational `2⁻⁵²`.
* the `VecDeque<u64>` frequency window is a `List ℕ` whose head is the front
  of the deque (`push_back` appends at the end, `pop_front` drops the head);
* atomics and mutexes are sequentialized: one manager tick (`scale_pool`) is a
  pure function of the swapped-out arrival counter and the current window, and
  returns the number of `create_blocking_thread` calls it performs together
  with the updated shared state;
* the children-group run-loop is a step function on the group's state taking
  one received envelope; effects on the broadcast channel are reified as an
  output list; `unreachable!` / `unimplemented!` panics are `none`.
-/

namespace Bastion

/-- Constant `DEFAULT_LOW_WATERMARK: u64 = 2` from blocking.rs. -/
def DEFAULT_LOW_WATERMARK : ℕ := 2

/-- Constant `MANAGER_POLL_INTERVAL: u64 = 200` from blocking.rs. -/
def MANAGER_POLL_INTERVAL : ℕ := 200

/-- Constant `FREQUENCY_QUEUE_SIZE: usize = 10` from blocking.rs. -/
def FREQUENCY_QUEUE_SIZE : ℕ := 10

/-- Constant `EMA_COEFFICIENT: f64 = 2 / (FREQUENCY_QUEUE_SIZE + 1)` from blocking.rs. -/
def EMA_COEFFICIENT : ℚ := 2 / ((FREQUENCY_QUEUE_SIZE : ℚ) + 1)

/-- Rational value of `std::f64::EPSILON` (2⁻⁵²), used by the throughput-hog test. -/
def f64_EPSILON : ℚ := 1 / 2 ^ 52

/-- Embedding of `fn calculate_ema(freq_queue: &VecDeque<u64>) -> f64`
(blocking.rs lines 177-181): a fold over `iter().enumerate()`, i.e. over the
deque from front to back, adding `freq * (1 - α)^i` for the element at
iteration index `i`, and finally multiplying by `EMA_COEFFICIENT`. -/
def calculate_ema (freq_queue : List ℕ) : ℚ :=
  (freq_queue.enum.foldl
    (fun acc p => acc + (p.2 : ℚ) * (1 - EMA_COEFFICIENT) ^ p.1) 0) * EMA_COEFFICIENT

/-- Modelled from the spec: the EWMA formula of section 4.2 read literally,
over a window `Y₀ … Yₙ₋₁` in which `Y₀` is the NEWEST sample.  In the actual
queue the newest sample sits at the back, so the spec formula weights the
reversed queue. -/
def spec_ema_newest_first (q : List ℕ) : ℚ :=
  EMA_COEFFICIENT *
    ∑ i ∈ Finset.range q.length,
      (q.reverse.getD i 0 : ℚ) * (1 - EMA_COEFFICIENT) ^ i

/-- Embedding of `fn low_watermark() -> &'static u64` (blocking.rs lines
339-349): the environment variable `BASTION_BLOCKING_THREADS` is modelled as
an optional already-parsed value; absent means the default. -/
def low_watermark (env : Option ℕ) : ℕ :=
  env.getD DEFAULT_LOW_WATERMARK

/-- First step of `scale_pool` on the window (blocking.rs lines 196-198):
an empty frequency queue is seeded with a single `0` sample (`push_back(0)`). -/
def padded_queue (q : List ℕ) : List ℕ :=
  if q.length = 0 then q ++ [0] else q

/-- Message rate for the tick (blocking.rs line 201):
`(current_frequency as f64 / MANAGER_POLL_INTERVAL as f64) as u64`, i.e. the
truncated arrivals-per-millisecond rate. -/
def window_frequency (current_frequency : ℕ) : ℕ :=
  current_frequency / MANAGER_POLL_INTERVAL

/-- Window update of `scale_pool` (blocking.rs lines 207-210): push the new
sample at the back, and pop the front when the length has reached
`FREQUENCY_QUEUE_SIZE.saturating_add(1) = 11`. -/
def pushed_queue (current_frequency : ℕ) (q : List ℕ) : List ℕ :=
  if (padded_queue q ++ [window_frequency current_frequency]).length
      = FREQUENCY_QUEUE_SIZE + 1 then
    (padded_queue q ++ [window_frequency current_frequency]).tail
  else
    padded_queue q ++ [window_frequency current_frequency]

/-- EMA of the window before the new sample is pushed (blocking.rs line 204). -/
def prev_ema (q : List ℕ) : ℚ :=
  calculate_ema (padded_queue q)

/-- EMA of the window after the new sample is pushed (blocking.rs line 213). -/
def curr_ema (current_frequency : ℕ) (q : List ℕ) : ℚ :=
  calculate_ema (pushed_queue current_frequency q)

/-- Result of one `scale_pool` tick: how many times `create_blocking_thread`
was called, the frequency window after the tick, and the arrival counter
after the tick (the counter was swapped to 0 at the start). -/
structure ScaleResult where
  spawnAttempts : ℕ
  newQueue : List ℕ
  newFrequency : ℕ
deriving DecidableEq, Repr

/-- Embedding of `fn scale_pool()` (blocking.rs lines 190-244).  Inputs are
the value swapped out of the `FREQUENCY` atomic, the content of `FREQ_QUEUE`,
and `num_cpus::get()`.  The upscale branch calls `create_blocking_thread`
`min(num_cpus, (2·Δ + 2) as usize)` times (the cast truncates the positive
float, i.e. takes the floor); the throughput-hog branch calls it
`DEFAULT_LOW_WATERMARK` times; otherwise no call is made. -/
def scale_pool (current_frequency : ℕ) (queue : List ℕ) (num_cpus : ℕ) : ScaleResult :=
  let prev := prev_ema queue
  let q3 := pushed_queue current_frequency queue
  let curr := calculate_ema q3
  let spawn : ℕ :=
    if prev < curr then
      min num_cpus
        (Int.toNat ⌊(DEFAULT_LOW_WATERMARK : ℚ) * (curr - prev) + (DEFAULT_LOW_WATERMARK : ℚ)⌋)
    else if |curr - prev| < f64_EPSILON ∧ current_frequency ≠ 0 then
      DEFAULT_LOW_WATERMARK
    else 0
  ⟨spawn, q3, 0⟩

theorem enumFrom_foldl_ema (l : List ℕ) (k : ℕ) (a : ℚ) :
    ((l.enumFrom k).foldl
      (fun acc p => acc + (p.2 : ℚ) * (1 - EMA_COEFFICIENT) ^ p.1) a)
      = a + ∑ i ∈ Finset.range l.length,
          (l.getD i 0 : ℚ) * (1 - EMA_COEFFICIENT) ^ (k + i) := by
  induction l generalizing k a with
  | nil => simp
  | cons x xs ih =>
      simp only [List.enumFrom, List.foldl, List.length_cons]
      rw [ih (k + 1), Finset.sum_range_succ']
      simp only [List.getD_cons_succ, List.getD_cons_zero, Nat.add_zero]
      have hk : ∀ i : ℕ, k + 1 + i = k + (i + 1) := fun i => by omega
      simp only [hk]
      ring

theorem calculate_ema_eq_sum (q : List ℕ) :
    calculate_ema q
      = EMA_COEFFICIENT * ∑ i ∈ Finset.range q.length,
          (q.getD i 0 : ℚ) * (1 - EMA_COEFFICIENT) ^ i := by
  rw [calculate_ema, show q.enum = q.enumFrom 0 from rfl, enumFrom_foldl_ema]
  simp only [Nat.zero_add, zero_add]
  ring

theorem calculate_ema_append_zero (l : List ℕ) :
    calculate_ema (l ++ [0]) = calculate_ema l := by
  rw [calculate_ema_eq_sum, calculate_ema_eq_sum]
  have hlen : (l ++ [0]).length = l.length + 1 := by simp
  rw [hlen, Finset.sum_range_succ]
  have hlast : ((l ++ [0]).getD l.length 0 : ℚ) = 0 := by
    rw [List.getD_append_right l [0] 0 l.length (le_refl l.length)]
    simp
  rw [hlast]
  have hsame : ∀ i ∈ Finset.range l.length,
      ((l ++ [0]).getD i 0 : ℚ) * (1 - EMA_COEFFICIENT) ^ i
        = (l.getD i 0 : ℚ) * (1 - EMA_COEFFICIENT) ^ i := by
    intro i hi
    rw [Finset.mem_range] at hi
    rw [List.getD_append l [0] 0 i hi]
  rw [Finset.sum_congr rfl hsame]
  ring

/-- Claim C1, counterexample: on the window `[0, 1]` — front (oldest) sample
`0`, back (newest) sample `1` — `calculate_ema` does not return the value of
the spec's newest-first formula: the code yields `18/121` (the newest sample
is the one whose weight decays) while the newest-first formula yields
`2/11`. -/
theorem calculate_ema_not_newest_first :
    calculate_ema [0, 1] ≠ spec_ema_newest_first [0, 1] := by
  have h1 : calculate_ema [0, 1] = 18 / 121 := by
    norm_num [calculate_ema, List.enum, List.enumFrom, EMA_COEFFICIENT, FREQUENCY_QUEUE_SIZE]
  have h2 : spec_ema_newest_first [0, 1] = 2 / 11 := by
    norm_num [spec_ema_newest_first, EMA_COEFFICIENT, FREQUENCY_QUEUE_SIZE,
      Finset.sum_range_succ]
  rw [h1, h2]
  norm_num

/-- Claim C1 (amended): for every frequency window `Y₀ … Yₙ₋₁` in which `Y₀`
is the OLDEST sample (the front of the deque — new samples are pushed at the
back), `calculate_ema` returns `α · Σᵢ Yᵢ · (1 − α)^i` with
`α = EMA_COEFFICIENT = 2/11`: the oldest sample receives weight `α` and each
strictly newer sample's weight decays by a further factor of `1 − α`. -/
theorem calculate_ema_weights_oldest_first (q : List ℕ) :
    calculate_ema q
      = EMA_COEFFICIENT * ∑ i ∈ Finset.range q.length,
          (q.getD i 0 : ℚ) * (1 - EMA_COEFFICIENT) ^ i
      ∧ EMA_COEFFICIENT = 2 / 11 := by
  refine ⟨calculate_ema_eq_sum q, ?_⟩
  norm_num [EMA_COEFFICIENT, FREQUENCY_QUEUE_SIZE]

/-- Claim C2, counterexample: a tick with ZERO arrivals can still spawn
workers.  With the full window `[0, 10, …, 10]` (oldest sample `0` at the
front) and `current_frequency = 0`, pushing the new `0` sample evicts the old
front `0`, which raises the EMA, so the upscale branch fires and 4 spawn
attempts are made on a 4-cpu machine. -/
theorem scale_pool_spawns_on_zero_arrivals :
    (scale_pool 0 [0, 10, 10, 10, 10, 10, 10, 10, 10, 10] 4).spawnAttempts ≠ 0 := by
  have h : (scale_pool 0 [0, 10, 10, 10, 10, 10, 10, 10, 10, 10] 4).spawnAttempts = 4 := by
    norm_num [scale_pool, curr_ema, prev_ema, pushed_queue, padded_queue, window_frequency,
      MANAGER_POLL_INTERVAL, calculate_ema, List.enum, List.enumFrom, EMA_COEFFICIENT,
      FREQUENCY_QUEUE_SIZE, DEFAULT_LOW_WATERMARK, f64_EPSILON, Int.toNat_ofNat]
  rw [h]
  norm_num

/-- Claim C2 (amended): for every invocation of `scale_pool` in which the
arrival counter taken-and-cleared at the start of the tick is `0`, no dynamic
worker is spawned (`create_blocking_thread` is never called during that
tick), for every prior content of the frequency window holding FEWER than
`FREQUENCY_QUEUE_SIZE` samples (so that no eviction takes place). -/
theorem scale_pool_zero_arrivals_no_spawn (q : List ℕ) (nc : ℕ)
    (h : q.length < FREQUENCY_QUEUE_SIZE) :
    (scale_pool 0 q nc).spawnAttempts = 0 := by
  have hfreq : window_frequency 0 = 0 := by
    norm_num [window_frequency, MANAGER_POLL_INTERVAL]
  have hpadlen : (padded_queue q).length ≤ FREQUENCY_QUEUE_SIZE - 1 := by
    rw [padded_queue]
    rcases Nat.eq_zero_or_pos q.length with h0 | h0
    · rw [if_pos h0]
      simp only [List.length_append, List.length_cons, List.length_nil, h0]
      norm_num [FREQUENCY_QUEUE_SIZE]
    · rw [if_neg (Nat.pos_iff_ne_zero.mp h0)]
      omega
  have hpush : pushed_queue 0 q = padded_queue q ++ [0] := by
    rw [pushed_queue, hfreq]
    have : (padded_queue q ++ [0]).length ≠ FREQUENCY_QUEUE_SIZE + 1 := by
      simp only [List.length_append, List.length_cons, List.length_nil]
      omega
    simp only [if_neg this]
  have hema : calculate_ema (pushed_queue 0 q) = prev_ema q := by
    rw [hpush, calculate_ema_append_zero, prev_ema]
  rw [scale_pool]
  simp only [hema]
  rw [if_neg (lt_irrefl _)]
  have hcond : ¬ (|prev_ema q - prev_ema q| < f64_EPSILON ∧ (0 : ℕ) ≠ 0) := by
    intro hc
    exact hc.2 rfl
  rw [if_neg hcond]

/-- Closed witness for `scale_pool_zero_arrivals_no_spawn` at the window
`[5]` on a 4-cpu machine. -/
theorem scale_pool_zero_arrivals_no_spawn_witness :
    ([5] : List ℕ).length < FREQUENCY_QUEUE_SIZE ∧
      (scale_pool 0 [5] 4).spawnAttempts = 0 :=
  ⟨by norm_num [FREQUENCY_QUEUE_SIZE], scale_pool_zero_arrivals_no_spawn [5] 4
    (by norm_num [FREQUENCY_QUEUE_SIZE])⟩

/-- Claim C3, counterexample: `scale_pool` does not use the env-configured
watermark.  With `BASTION_BLOCKING_THREADS = 3` (so `low_watermark = 3`),
window `[0]`, 1400 arrivals and 8 cpus, the trend is upward
(`Δ = 126/121`), the code makes `min(8, ⌊2·Δ + 2⌋) = 4` spawn attempts, but
the claim's formula with the env-configured watermark gives
`min(8, ⌊3·Δ + 3⌋) = 6`. -/
theorem scale_pool_ignores_env_watermark :
    low_watermark (some 3) = 3 ∧
    prev_ema [0] < curr_ema 1400 [0] ∧
    (scale_pool 1400 [0] 8).spawnAttempts
      ≠ min 8 (Int.toNat ⌊(low_watermark (some 3) : ℚ) * (curr_ema 1400 [0] - prev_ema [0])
          + (low_watermark (some 3) : ℚ)⌋) := by
  have hprev : prev_ema [0] = 0 := by
    norm_num [prev_ema, padded_queue, calculate_ema, List.enum, List.enumFrom,
      EMA_COEFFICIENT, FREQUENCY_QUEUE_SIZE]
  have hcurr : curr_ema 1400 [0] = 126 / 121 := by
    norm_num [curr_ema, pushed_queue, padded_queue, window_frequency, MANAGER_POLL_INTERVAL,
      calculate_ema, List.enum, List.enumFrom, EMA_COEFFICIENT, FREQUENCY_QUEUE_SIZE]
  have hspawn : (scale_pool 1400 [0] 8).spawnAttempts = 4 := by
    norm_num [scale_pool, curr_ema, prev_ema, pushed_queue, padded_queue, window_frequency,
      MANAGER_POLL_INTERVAL, calculate_ema, List.enum, List.enumFrom, EMA_COEFFICIENT,
      FREQUENCY_QUEUE_SIZE, DEFAULT_LOW_WATERMARK, f64_EPSILON]
    all_goals decide
  refine ⟨rfl, ?_, ?_⟩
  · rw [hprev, hcurr]
    norm_num
  · rw [hspawn, hprev, hcurr]
    norm_num [low_watermark, DEFAULT_LOW_WATERMARK]
    all_goals decide

/-- Claim C3 (amended): for every invocation of `scale_pool` in which
`curr_ema > prev_ema`, with `Δ = curr_ema − prev_ema`, exactly
`min(num_cpus, ⌊W·Δ + W⌋)` spawn attempts are made where `W` is the
compile-time constant `DEFAULT_LOW_WATERMARK = 2`; the value of the
environment variable `BASTION_BLOCKING_THREADS` is not consulted by
`scale_pool`. -/
theorem scale_pool_upscale_amount (cur : ℕ) (q : List ℕ) (nc : ℕ)
    (h : prev_ema q < curr_ema cur q) :
    (scale_pool cur q nc).spawnAttempts
      = min nc (Int.toNat ⌊(DEFAULT_LOW_WATERMARK : ℚ) * (curr_ema cur q - prev_ema q)
          + (DEFAULT_LOW_WATERMARK : ℚ)⌋) := by
  have h' : prev_ema q < calculate_ema (pushed_queue cur q) := h
  rw [scale_pool]
  rw [if_pos h']
  rfl

/-- Closed witness for `scale_pool_upscale_amount`: window `[0]`,
1400 arrivals, 8 cpus. -/
theorem scale_pool_upscale_amount_witness :
    prev_ema [0] < curr_ema 1400 [0] ∧
      (scale_pool 1400 [0] 8).spawnAttempts
        = min 8 (Int.toNat ⌊(DEFAULT_LOW_WATERMARK : ℚ) * (curr_ema 1400 [0] - prev_ema [0])
            + (DEFAULT_LOW_WATERMARK : ℚ)⌋) := by
  have h : prev_ema [0] < curr_ema 1400 [0] := by
    norm_num [prev_ema, curr_ema, pushed_queue, padded_queue, window_frequency,
      MANAGER_POLL_INTERVAL, calculate_ema, List.enum, List.enumFrom, EMA_COEFFICIENT,
      FREQUENCY_QUEUE_SIZE]
  exact ⟨h, scale_pool_upscale_amount 1400 [0] 8 h⟩

/-- Claim C4, counterexample: the throughput-hog branch does not use the
env-configured watermark.  With `BASTION_BLOCKING_THREADS = 5` (so
`low_watermark = 5`), empty window and 100 arrivals, both EMAs are `0`
(`|Δ| = 0 < ε`) and arrivals are nonzero, yet the code makes
`DEFAULT_LOW_WATERMARK = 2` spawn attempts, not 5. -/
theorem scale_pool_hog_ignores_env_watermark :
    low_watermark (some 5) = 5 ∧
    (100 : ℕ) ≠ 0 ∧
    |curr_ema 100 [] - prev_ema []| < f64_EPSILON ∧
    (scale_pool 100 [] 8).spawnAttempts ≠ low_watermark (some 5) := by
  have hprev : prev_ema [] = 0 := by
    norm_num [prev_ema, padded_queue, calculate_ema, List.enum, List.enumFrom,
      EMA_COEFFICIENT, FREQUENCY_QUEUE_SIZE]
  have hcurr : curr_ema 100 [] = 0 := by
    norm_num [curr_ema, pushed_queue, padded_queue, window_frequency, MANAGER_POLL_INTERVAL,
      calculate_ema, List.enum, List.enumFrom, EMA_COEFFICIENT, FREQUENCY_QUEUE_SIZE]
  have hspawn : (scale_pool 100 [] 8).spawnAttempts = 2 := by
    norm_num [scale_pool, curr_ema, prev_ema, pushed_queue, padded_queue, window_frequency,
      MANAGER_POLL_INTERVAL, calculate_ema, List.enum, List.enumFrom, EMA_COEFFICIENT,
      FREQUENCY_QUEUE_SIZE, DEFAULT_LOW_WATERMARK, f64_EPSILON]
  refine ⟨rfl, by norm_num, ?_, ?_⟩
  · rw [hprev, hcurr]
    norm_num [f64_EPSILON]
  · rw [hspawn]
    norm_num [low_watermark]

/-- Claim C4 (amended): for every invocation of `scale_pool` in which the
arrival count taken for the tick is nonzero, the upscale condition
`curr_ema > prev_ema` does not hold (so the else-if throughput-hog branch is
reached), and `|curr_ema − prev_ema|` is below machine epsilon, exactly
`DEFAULT_LOW_WATERMARK = 2` spawn attempts are made; the env-configured low
watermark is not consulted. -/
theorem scale_pool_throughput_hog (cur : ℕ) (q : List ℕ) (nc : ℕ)
    (h0 : cur ≠ 0)
    (h1 : ¬ prev_ema q < curr_ema cur q)
    (h2 : |curr_ema cur q - prev_ema q| < f64_EPSILON) :
    (scale_pool cur q nc).spawnAttempts = DEFAULT_LOW_WATERMARK := by
  have h1' : ¬ prev_ema q < calculate_ema (pushed_queue cur q) := h1
  have h2' : |calculate_ema (pushed_queue cur q) - prev_ema q| < f64_EPSILON := h2
  rw [scale_pool]
  rw [if_neg h1', if_pos ⟨h2', h0⟩]

/-- Closed witness for `scale_pool_throughput_hog`: empty window,
100 arrivals, 8 cpus. -/
theorem scale_pool_throughput_hog_witness :
    (100 : ℕ) ≠ 0 ∧
    ¬ prev_ema [] < curr_ema 100 [] ∧
    |curr_ema 100 [] - prev_ema []| < f64_EPSILON ∧
    (scale_pool 100 [] 8).spawnAttempts = DEFAULT_LOW_WATERMARK := by
  have hprev : prev_ema [] = 0 := by
    norm_num [prev_ema, padded_queue, calculate_ema, List.enum, List.enumFrom,
      EMA_COEFFICIENT, FREQUENCY_QUEUE_SIZE]
  have hcurr : curr_ema 100 [] = 0 := by
    norm_num [curr_ema, pushed_queue, padded_queue, window_frequency, MANAGER_POLL_INTERVAL,
      calculate_ema, List.enum, List.enumFrom, EMA_COEFFICIENT, FREQUENCY_QUEUE_SIZE]
  have h1 : ¬ prev_ema [] < curr_ema 100 [] := by
    rw [hprev, hcurr]
    exact lt_irrefl 0
  have h2 : |curr_ema 100 [] - prev_ema []| < f64_EPSILON := by
    rw [hprev, hcurr]
    norm_num [f64_EPSILON]
  exact ⟨by norm_num, h1, h2, scale_pool_throughput_hog 100 [] 8 (by norm_num) h1 h2⟩

/-- Claim C5: every `scale_pool` tick leaves the arrival counter at `0` (the
counter is swapped out at the start of the tick), and preserves the window
bound: starting from a window of at most `FREQUENCY_QUEUE_SIZE = 10` samples
the updated window again holds at most 10 samples, and when the padded
window is already full (appending would exceed 10) the updated window is the
old window with its front (oldest) sample evicted and the new sample at the
back. -/
theorem scale_pool_window_invariant (cur : ℕ) (q : List ℕ) (nc : ℕ)
    (h : q.length ≤ FREQUENCY_QUEUE_SIZE) :
    (scale_pool cur q nc).newFrequency = 0 ∧
    (scale_pool cur q nc).newQueue.length ≤ FREQUENCY_QUEUE_SIZE ∧
    ((padded_queue q).length = FREQUENCY_QUEUE_SIZE →
      (scale_pool cur q nc).newQueue
        = (padded_queue q).tail ++ [window_frequency cur]) := by
  have hq3 : (scale_pool cur q nc).newQueue = pushed_queue cur q := rfl
  have hpadlen : 1 ≤ (padded_queue q).length ∧
      (padded_queue q).length ≤ FREQUENCY_QUEUE_SIZE := by
    rw [padded_queue]
    rcases Nat.eq_zero_or_pos q.length with h0 | h0
    · rw [if_pos h0]
      constructor <;> simp [h0, FREQUENCY_QUEUE_SIZE]
    · rw [if_neg (Nat.pos_iff_ne_zero.mp h0)]
      exact ⟨h0, h⟩
  refine ⟨rfl, ?_, ?_⟩
  · rw [hq3, pushed_queue]
    by_cases hc : (padded_queue q ++ [window_frequency cur]).length
        = FREQUENCY_QUEUE_SIZE + 1
    · rw [if_pos hc]
      rw [List.length_tail, hc]
      norm_num
    · rw [if_neg hc]
      simp only [List.length_append, List.length_cons, List.length_nil] at hc ⊢
      omega
  · intro hfull
    rw [hq3, pushed_queue]
    have hc : (padded_queue q ++ [window_frequency cur]).length
        = FREQUENCY_QUEUE_SIZE + 1 := by
      simp [hfull]
    rw [if_pos hc]
    cases hp : padded_queue q with
    | nil =>
        rw [hp] at hfull
        norm_num [FREQUENCY_QUEUE_SIZE] at hfull
    | cons a l =>
        simp [hp]

/-- Closed witness for `scale_pool_window_invariant`: a full window of ten
samples, 500 arrivals, 4 cpus. -/
theorem scale_pool_window_invariant_witness :
    ([1, 2, 3, 4, 5, 6, 7, 8, 9, 10] : List ℕ).length ≤ FREQUENCY_QUEUE_SIZE ∧
    ((scale_pool 500 [1, 2, 3, 4, 5, 6, 7, 8, 9, 10] 4).newFrequency = 0 ∧
      (scale_pool 500 [1, 2, 3, 4, 5, 6, 7, 8, 9, 10] 4).newQueue.length
        ≤ FREQUENCY_QUEUE_SIZE ∧
      ((padded_queue [1, 2, 3, 4, 5, 6, 7, 8, 9, 10]).length = FREQUENCY_QUEUE_SIZE →
        (scale_pool 500 [1, 2, 3, 4, 5, 6, 7, 8, 9, 10] 4).newQueue
          = (padded_queue [1, 2, 3, 4, 5, 6, 7, 8, 9, 10]).tail
              ++ [window_frequency 500])) :=
  ⟨by norm_num [FREQUENCY_QUEUE_SIZE],
    scale_pool_window_invariant 500 [1, 2, 3, 4, 5, 6, 7, 8, 9, 10] 4
      (by norm_num [FREQUENCY_QUEUE_SIZE])⟩

/-- Outcome of the OS-level `thread::Builder::spawn` call inside
`create_blocking_thread`: success, a `WouldBlock` error, or any other spawn
error (which is logged and swallowed). -/
inductive SpawnOutcome where
  | ok
  | wouldBlock
  | otherErr
deriving DecidableEq, Repr

/-- The shared state read and written by `create_blocking_thread`:
the `POOL_SIZE` mutex and the `MAX_THREADS` atomic. -/
structure ThreadState where
  poolSize : ℕ
  maxThreads : ℕ
deriving DecidableEq, Repr

/-- What a call to `create_blocking_thread` did: whether a dynamic worker
thread was spawned, and the value of `MAX_THREADS` afterwards. -/
structure SpawnResult where
  spawned : Bool
  maxThreads : ℕ
deriving DecidableEq, Repr

/-- Embedding of `fn create_blocking_thread()` (blocking.rs lines 249-304).
If `POOL_SIZE >= MAX_THREADS` the function stores `10_000` into
`MAX_THREADS` and returns without spawning.  Otherwise it attempts the OS
spawn: on success the thread is spawned and `MAX_THREADS` is untouched; on a
`WouldBlock` error `MAX_THREADS` is set to `POOL_SIZE.checked_sub(1)`, where
the `expect` on an underflow (POOL_SIZE = 0) is modelled as `none`; any
other error is logged and swallowed. -/
def create_blocking_thread (s : ThreadState) (os : SpawnOutcome) : Option SpawnResult :=
  if s.maxThreads ≤ s.poolSize then
    some ⟨false, 10000⟩
  else
    match os with
    | .ok => some ⟨true, s.maxThreads⟩
    | .wouldBlock =>
        if 1 ≤ s.poolSize then some ⟨false, s.poolSize - 1⟩ else none
    | .otherErr => some ⟨false, s.maxThreads⟩

/-- Claim C6: whenever `POOL_SIZE ≥ MAX_THREADS`, `create_blocking_thread`
returns without spawning any thread and `MAX_THREADS` is reset to `10 000`;
and when a spawn is attempted (`POOL_SIZE < MAX_THREADS`, with at least one
worker accounted so the `checked_sub` cannot underflow) and the OS reports
would-block, no thread is spawned and `MAX_THREADS` is set to
`POOL_SIZE − 1`. -/
theorem create_blocking_thread_limits (s : ThreadState) (os : SpawnOutcome) :
    (s.maxThreads ≤ s.poolSize →
      create_blocking_thread s os = some ⟨false, 10000⟩) ∧
    (s.poolSize < s.maxThreads → 1 ≤ s.poolSize → os = SpawnOutcome.wouldBlock →
      create_blocking_thread s os = some ⟨false, s.poolSize - 1⟩) := by
  constructor
  · intro hle
    rw [create_blocking_thread.eq_def, if_pos hle]
  · intro hlt hpos hos
    rw [create_blocking_thread.eq_def, if_neg (not_le_of_lt hlt), hos]
    simp only [if_pos hpos]

/-- Closed witness for `create_blocking_thread_limits`: the saturated case
at `POOL_SIZE = MAX_THREADS = 10 000` and the would-block case at
`POOL_SIZE = 5`, `MAX_THREADS = 10 000`. -/
theorem create_blocking_thread_limits_witness :
    create_blocking_thread ⟨10000, 10000⟩ SpawnOutcome.ok = some ⟨false, 10000⟩ ∧
    create_blocking_thread ⟨5, 10000⟩ SpawnOutcome.wouldBlock = some ⟨false, 4⟩ :=
  ⟨(create_blocking_thread_limits ⟨10000, 10000⟩ SpawnOutcome.ok).1 (by norm_num),
    (create_blocking_thread_limits ⟨5, 10000⟩ SpawnOutcome.wouldBlock).2
      (by norm_num) (by norm_num) rfl⟩

/-- The `BastionMessage` enum from message.rs as used by children.rs; user
payloads and the deployment / strategy payloads are abstracted to `ℕ`. -/
inductive BastionMessage where
  | start
  | stop
  | kill
  | deploy (d : ℕ)
  | prune (id : ℕ)
  | superviseWith (s : ℕ)
  | message (payload : ℕ)
  | stopped (id : ℕ)
  | faulted (id : ℕ)
deriving DecidableEq, Repr

/-- An `Envelope`: the message plus its routing metadata (sender path and
sender handle), abstracted to a single `ℕ` since children.rs never inspects
it — it only matches on `msg` and forwards whole envelopes. -/
structure Envelope where
  msg : BastionMessage
  sender : ℕ
deriving DecidableEq, Repr

/-- State of a `Children` group (children.rs lines 71-88).  `launched` is the
map of currently launched children, modelled as the list of its `BastionId`
keys in insertion order (ids of distinct children are distinct — fresh ids
are globally unique and killed ids were drained from `launched`); `killed`
is the list of killed child ids whose channels are cached for reuse.  The
`bcast`, `init` and `callbacks` fields carry no state the verified claims
depend on: effects on the broadcast channel are reified as `Output`s. -/
structure ChildrenGroup where
  launched : List ℕ
  killed : List ℕ
  preStartMsgs : List Envelope
  started : Bool
  redundancy : ℕ
deriving DecidableEq, Repr

/-- Effects a children-group run-loop step performs on its broadcast
channel: forwarding an envelope to all children (`bcast.send_children`),
sending `Stop`/`Kill` to all children (`bcast.stop_children` /
`bcast.kill_children`, both of which also clear the registered children),
and notifying the parent (`bcast.stopped()` / `bcast.faulted()`). -/
inductive Output where
  | sendChildren (e : Envelope)
  | stopChildren
  | killChildren
  | stoppedParent
  | faultedParent
deriving DecidableEq, Repr

/-- Embedding of `async fn handle(&mut self, env: Envelope) -> Result<(), ()>`
(children.rs lines 393-472) together with the private `stop` / `kill` /
`stopped` / `faulted` helpers it calls.  The result is `none` when the code
panics (`unreachable!` for `Start`, `unimplemented!` for `Deploy`, `Prune`
and `SuperviseWith`); otherwise `some (state', outputs, ok)` where `ok` is
`true` for `Ok(())` (the run-loop continues) and `false` for `Err(())` (the
run-loop returns). -/
def handle (g : ChildrenGroup) (e : Envelope) :
    Option (ChildrenGroup × List Output × Bool) :=
  match e.msg with
  | .start => none
  | .stop =>
      some ({ g with launched := [] },
        [Output.stopChildren, Output.stoppedParent], false)
  | .kill =>
      some ({ g with launched := [], killed := g.killed ++ g.launched },
        [Output.killChildren, Output.stoppedParent], false)
  | .deploy _ => none
  | .prune _ => none
  | .superviseWith _ => none
  | .message _ => some (g, [Output.sendChildren e], true)
  | .stopped id =>
      if id ∈ g.launched then
        some ({ g with launched := [] },
          [Output.stopChildren, Output.stoppedParent], false)
      else
        some (g, [], true)
  | .faulted id =>
      if id ∈ g.launched then
        some ({ g with launched := [], killed := g.killed ++ g.launched },
          [Output.killChildren, Output.faultedParent], false)
      else
        some (g, [], true)

/-- The replay loop inside the `Start` arm of `Children::run` (children.rs
lines 507-512): each drained pre-start message is fed to `handle`; an
`Err(())` makes the run-loop return, a panic propagates. -/
def replay (g : ChildrenGroup) (msgs : List Envelope) (outs : List Output) :
    Option (ChildrenGroup × List Output × Bool) :=
  match msgs with
  | [] => some (g, outs, true)
  | m :: rest =>
      match handle g m with
      | none => none
      | some (g', os, true) => replay g' rest (outs ++ os)
      | some (g', os, false) => some (g', outs ++ os, false)

/-- One iteration of the message part of `async fn run(mut self)`
(children.rs lines 481-537), on receipt of envelope `e`: a `Start` envelope
sets `started := true`, broadcasts a fresh `Start` envelope (built with the
group's own path and sender, abstracted as `selfSender`) to the children,
drains `pre_start_msgs` and replays them through `handle`; any other
envelope is buffered when `started` is still false and otherwise dispatched
to `handle`. -/
def run_step (g : ChildrenGroup) (e : Envelope) (selfSender : ℕ) :
    Option (ChildrenGroup × List Output × Bool) :=
  match e.msg with
  | .start =>
      replay { g with started := true, preStartMsgs := [] } g.preStartMsgs
        [Output.sendChildren ⟨BastionMessage.start, selfSender⟩]
  | _ =>
      if g.started = false then
        some ({ g with preStartMsgs := g.preStartMsgs ++ [e] }, [], true)
      else
        handle g e

/-- Embedding of `pub fn with_redundancy(mut self, redundancy: usize)`
(children.rs lines 279-292): `std::usize::MIN = 0` is replaced by
`0.saturating_add(1) = 1`, any other value is stored as-is. -/
def with_redundancy (g : ChildrenGroup) (redundancy : ℕ) : ChildrenGroup :=
  if redundancy = 0 then
    { g with redundancy := redundancy + 1 }
  else
    { g with redundancy := redundancy }

/-- The loop body of `launch_elems` iterated `n` times: each iteration pops
the most recently killed child (`self.killed.pop()`, i.e. the back of the
list) to reuse its id, or draws a fresh id from the stream `fresh` at
counter `c`, and records the new child in `launched`
(`self.launched.insert(id, …)`). -/
def launch_elems_go (n : ℕ) (launched killed : List ℕ) (fresh : ℕ → ℕ) (c : ℕ) :
    List ℕ × List ℕ :=
  match n with
  | 0 => (launched, killed)
  | n + 1 =>
      match killed.getLast? with
      | some id => launch_elems_go n (launched ++ [id]) killed.dropLast fresh c
      | none => launch_elems_go n (launched ++ [fresh c]) killed fresh (c + 1)

/-- Embedding of `pub(crate) fn launch_elems(&mut self)` (children.rs lines
541-590): creates `self.redundancy` children, preferring ids popped from
`killed`, and inserts each into `launched`.  The stream `fresh` supplies the
globally unique ids that `BastionId::new()` would generate. -/
def launch_elems (g : ChildrenGroup) (fresh : ℕ → ℕ) : ChildrenGroup :=
  let r := launch_elems_go g.redundancy g.launched g.killed fresh 0
  { g with launched := r.1, killed := r.2 }

theorem replay_of_user_msgs (msgs : List Envelope) (g : ChildrenGroup) (outs : List Output)
    (h : ∀ m ∈ msgs, ∃ p, m.msg = BastionMessage.message p) :
    replay g msgs outs = some (g, outs ++ msgs.map Output.sendChildren, true) := by
  induction msgs generalizing g outs with
  | nil => simp [replay]
  | cons m rest ih =>
      obtain ⟨p, hp⟩ := h m (List.mem_cons_self m rest)
      have hh : handle g m = some (g, [Output.sendChildren m], true) := by
        simp only [handle, hp]
      rw [replay, hh]
      show replay g rest (outs ++ [Output.sendChildren m])
        = some (g, outs ++ List.map Output.sendChildren (m :: rest), true)
      rw [ih _ _ (fun m' hm' => h m' (List.mem_cons_of_mem m hm'))]
      simp

/-- Claim C7: while `started` is false, a received user message is appended
to `pre_start_msgs` (FIFO, at the back) and not forwarded to the children
(no broadcast output); and upon receiving `Start`, the run-loop sets
`started := true`, forwards a `Start` envelope to its children, and then
replays every buffered message in insertion order — when the buffer holds
user messages, the step's outputs are exactly the forwarded `Start` followed
by the buffered messages forwarded in FIFO order, before any later message
is processed. -/
theorem children_pre_start_buffer_and_replay (g : ChildrenGroup) (e : Envelope)
    (p sm : ℕ) (hns : g.started = false) :
    (e.msg = BastionMessage.message p →
      run_step g e sm
        = some ({ g with preStartMsgs := g.preStartMsgs ++ [e] }, [], true)) ∧
    ((∀ m ∈ g.preStartMsgs, ∃ q, m.msg = BastionMessage.message q) →
      run_step g ⟨BastionMessage.start, e.sender⟩ sm
        = some ({ g with started := true, preStartMsgs := [] },
            Output.sendChildren ⟨BastionMessage.start, sm⟩
              :: g.preStartMsgs.map Output.sendChildren, true)) := by
  constructor
  · intro hp
    simp only [run_step, hp]
    rw [if_pos hns]
  · intro hall
    simp only [run_step]
    rw [replay_of_user_msgs _ _ _ hall]
    simp

/-- Closed witness for `children_pre_start_buffer_and_replay`: an unstarted
group with two buffered user messages receives a third user message, and
then receives `Start`. -/
theorem children_pre_start_buffer_and_replay_witness :
    run_step ⟨[], [], [⟨BastionMessage.message 1, 0⟩, ⟨BastionMessage.message 2, 0⟩],
        false, 1⟩ ⟨BastionMessage.message 7, 5⟩ 9
      = some (⟨[], [], [⟨BastionMessage.message 1, 0⟩, ⟨BastionMessage.message 2, 0⟩,
          ⟨BastionMessage.message 7, 5⟩], false, 1⟩, [], true) ∧
    run_step ⟨[], [], [⟨BastionMessage.message 1, 0⟩, ⟨BastionMessage.message 2, 0⟩],
        false, 1⟩ ⟨BastionMessage.start, 5⟩ 9
      = some (⟨[], [], [], true, 1⟩,
          [Output.sendChildren ⟨BastionMessage.start, 9⟩,
            Output.sendChildren ⟨BastionMessage.message 1, 0⟩,
            Output.sendChildren ⟨BastionMessage.message 2, 0⟩], true) :=
  ⟨(children_pre_start_buffer_and_replay
      ⟨[], [], [⟨BastionMessage.message 1, 0⟩, ⟨BastionMessage.message 2, 0⟩], false, 1⟩
      ⟨BastionMessage.message 7, 5⟩ 7 9 rfl).1 rfl,
    (children_pre_start_buffer_and_replay
      ⟨[], [], [⟨BastionMessage.message 1, 0⟩, ⟨BastionMessage.message 2, 0⟩], false, 1⟩
      ⟨BastionMessage.message 7, 5⟩ 7 9 rfl).2
      (by
        intro m hm
        simp only [List.mem_cons, List.not_mem_nil, or_false] at hm
        rcases hm with rfl | rfl
        · exact ⟨1, rfl⟩
        · exact ⟨2, rfl⟩)⟩

/-- Claim C8: a `Stopped{id}` or `Faulted{id}` envelope whose `id` is not a
key of `launched` is ignored: `handle` returns `Ok(())` (so the run-loop
continues), the group's state (`launched`, `killed`, `pre_start_msgs`,
`started`) is unchanged, and no broadcast effect is produced (the
registered children are untouched). -/
theorem handle_unknown_child_ignored (g : ChildrenGroup) (e : Envelope) (id : ℕ)
    (hid : id ∉ g.launched)
    (hm : e.msg = BastionMessage.stopped id ∨ e.msg = BastionMessage.faulted id) :
    handle g e = some (g, [], true) := by
  rcases hm with hm | hm <;> simp only [handle, hm] <;> rw [if_neg hid]

/-- Closed witness for `handle_unknown_child_ignored`: a started group whose
only launched child has id 3 receives `Stopped{4}`. -/
theorem handle_unknown_child_ignored_witness :
    (4 : ℕ) ∉ ([3] : List ℕ) ∧
      handle ⟨[3], [], [], true, 1⟩ ⟨BastionMessage.stopped 4, 0⟩
        = some (⟨[3], [], [], true, 1⟩, [], true) :=
  ⟨by decide, handle_unknown_child_ignored ⟨[3], [], [], true, 1⟩
    ⟨BastionMessage.stopped 4, 0⟩ 4 (by decide) (Or.inl rfl)⟩

/-- Claim C9: `with_redundancy n` stores redundancy `1` when `n = 0` and `n`
otherwise, and `launch_elems` then creates exactly `redundancy` children
(that many insertions into `launched`); in particular `with_redundancy 0`
followed by `launch_elems` adds exactly one child. -/
theorem with_redundancy_launch_counts (g : ChildrenGroup) (n : ℕ) (fresh : ℕ → ℕ) :
    (with_redundancy g n).redundancy = (if n = 0 then 1 else n) ∧
    (launch_elems (with_redundancy g n) fresh).launched.length
      = g.launched.length + (with_redundancy g n).redundancy ∧
    (launch_elems (with_redundancy g 0) fresh).launched.length
      = g.launched.length + 1 := by
  have hgo : ∀ (k : ℕ) (launched killed : List ℕ) (c : ℕ),
      (launch_elems_go k launched killed fresh c).1.length = launched.length + k := by
    intro k
    induction k with
    | zero => intro launched killed c; rw [launch_elems_go]; simp
    | succ k ih =>
        intro launched killed c
        cases hk : killed.getLast? with
        | some id =>
            rw [launch_elems_go, hk]
            rw [ih]
            simp only [List.length_append, List.length_cons, List.length_nil]
            omega
        | none =>
            rw [launch_elems_go, hk]
            rw [ih]
            simp only [List.length_append, List.length_cons, List.length_nil]
            omega
  have hlen : ∀ g' : ChildrenGroup,
      (launch_elems g' fresh).launched.length = g'.launched.length + g'.redundancy := by
    intro g'
    rw [launch_elems]
    exact hgo g'.redundancy g'.launched g'.killed 0
  have hlaunch : (with_redundancy g n).launched = g.launched := by
    rw [with_redundancy]
    by_cases h0 : n = 0
    · rw [if_pos h0]
    · rw [if_neg h0]
  have hred : (with_redundancy g n).redundancy = (if n = 0 then 1 else n) := by
    rw [with_redundancy]
    by_cases h0 : n = 0
    · rw [if_pos h0, if_pos h0, h0]
    · rw [if_neg h0, if_neg h0]
  refine ⟨hred, ?_, ?_⟩
  · rw [hlen, hlaunch]
  · rw [hlen]
    simp [with_redundancy]

/-- Claim C10: after `Start` (`started = true`), a `Deploy(_)`, `Prune{..}`
or `SuperviseWith(_)` envelope makes the run-loop panic: `Children::handle`
hits an `unimplemented!` branch (modelled as `none`) rather than processing
or ignoring the message. -/
theorem run_step_unimplemented_lifecycle (g : ChildrenGroup) (e : Envelope) (sm : ℕ)
    (hs : g.started = true)
    (hm : (∃ d, e.msg = BastionMessage.deploy d)
      ∨ (∃ i, e.msg = BastionMessage.prune i)
      ∨ (∃ s, e.msg = BastionMessage.superviseWith s)) :
    run_step g e sm = none := by
  rcases hm with ⟨d, hd⟩ | ⟨i, hi⟩ | ⟨s, hsw⟩
  · simp [run_step, handle, hd, hs]
  · simp [run_step, handle, hi, hs]
  · simp [run_step, handle, hsw, hs]

/-- Closed witness for `run_step_unimplemented_lifecycle`: a started group
receiving `Deploy`. -/
theorem run_step_unimplemented_lifecycle_witness :
    run_step ⟨[], [], [], true, 1⟩ ⟨BastionMessage.deploy 0, 0⟩ 0 = none :=
  run_step_unimplemented_lifecycle ⟨[], [], [], true, 1⟩ ⟨BastionMessage.deploy 0, 0⟩ 0
    rfl (Or.inl ⟨0, rfl⟩)

end Bastion
